import Mathlib

/-!
# candybar: the widget core (`src/widgets.c`)

A shallow embedding of the functions of `src/widgets.c`
(`init_widget_js_obj`, `spawn_widget`, `join_widget_threads`,
`web_view_callback`, `wk_load_status_cb`, `wk_window_object_cleared_cb`)
and the properties of the widget core that can be read off them.

Conventions of the embedding.

* Every call into a library (pthreads, GLib, JavaScriptCore, eventfd) whose
  order matters is recorded as an `Event`; a function returns the events it
  performed, in order.
* Opaque handles (`JSContextRef`, `JSObjectRef`, `pthread_t`, `bar`, `json_t *`)
  are natural numbers, `0` being `NULL`. A `struct widget *` that may be `NULL`
  is an `Option widget`.
* Results that the environment decides (whether a module exists, what
  `pthread_create`, `clock_gettime` and `pthread_cond_timedwait` return, what
  the page has stored under `onDataChanged`) are inputs of the model.
* Of the heap, the model keeps what the code's behaviour depends on: `calloc`
  yields a fresh address for the widget, the `free` calls of the `error` path of
  `spawn_widget` are events, and a `free` of a pointer that `malloc` did not
  return aborts the process (`World.aborted`).
* Loops whose counter is an `unsigned short` are run with that counter, modulo
  65536, and with fuel: `Outcome.out_of_fuel` or `none` means the loop is still
  running after as many iterations as the fuel allows.
-/

namespace Candybar

/-! ## Data model -/

/-- A C string: the bytes before the terminating NUL, one `Char` per byte. -/
abbrev CString := List Char

/-- The call `snprintf(buf, size, "<pre>%s", arg)`: the formatted text, cut to
the `size - 1` bytes that fit in front of the terminating NUL. -/
def snprintf (size : Nat) (pre arg : CString) : CString :=
  (pre ++ arg).take (size - 1)

/-- The number of values of an `unsigned short`, the type of the loop counters of
`web_view_callback` and `join_widget_threads`: `i++` at 65535 gives 0. -/
def USHRT_RANGE : Nat := 65536

/-- A C `double`, carried as its bit pattern: the code only passes it on. -/
structure double where
  bits : Nat
  deriving DecidableEq, Repr

/-- The `JSType` tags of JavaScriptCore that `web_view_callback` switches on. -/
inductive JSType
  | kJSTypeUndefined
  | kJSTypeNull
  | kJSTypeBoolean
  | kJSTypeNumber
  | kJSTypeString
  | kJSTypeObject
  deriving DecidableEq, Repr

/-- A `JSValueRef`, as the JavaScriptCore constructors build it:
`JSValueMakeUndefined`, `JSValueMakeNull`, `JSValueMakeBoolean`,
`JSValueMakeNumber`, `JSValueMakeString` (of the `JSStringRef` made from a
UTF-8 C string), or an object handle. -/
inductive JSValue
  | undefined
  | null
  | boolean (b : Bool)
  | number (x : double)
  | string (s : CString)
  | object (ref : Nat)
  deriving DecidableEq, Repr

/-- JavaScriptCore `JSValueGetType`. -/
def JSValueGetType : JSValue → JSType
  | .undefined => .kJSTypeUndefined
  | .null => .kJSTypeNull
  | .boolean _ => .kJSTypeBoolean
  | .number _ => .kJSTypeNumber
  | .string _ => .kJSTypeString
  | .object _ => .kJSTypeObject

/-- The union `value` of one callback argument, as the record of its members
(`.value.boolean`, `.value.number`, `.value.string`, `.value.object`); the code
reads only the member that the tag names. -/
structure js_callback_value where
  boolean : Bool
  number : double
  string : CString
  object : Nat
  deriving DecidableEq, Repr

/-- One tagged value of a widget update (`data->args[i]`). -/
structure js_callback_arg where
  type : JSType
  value : js_callback_value
  deriving DecidableEq, Repr

/-- The record `struct widget`, with the fields `src/widgets.c` uses. `self` is the
address of the record, which identifies its `exit_mutex` and `exit_cond`. -/
structure widget where
  self : Nat
  bar : Nat
  config : Nat
  name : CString
  type : CString
  js_staticfuncs : Nat
  js_context : Nat
  js_object : Nat
  thread : Nat
  deriving DecidableEq, Repr

/-- The record `struct js_callback_data`: the target widget and the tagged-value
list; `args_len` is the length of `args`. -/
structure js_callback_data where
  widget : widget
  args : List js_callback_arg
  deriving DecidableEq, Repr

/-- A `struct timespec`. -/
structure timespec where
  tv_sec : Int
  tv_nsec : Int
  deriving DecidableEq, Repr

/-- The mutexes of the program: the two file-level ones and one per widget. -/
inductive Mutex
  | web_view_ready_mutex
  | update_mutex
  | exit_mutex (widget : Nat)
  deriving DecidableEq, Repr

/-- The condition variables of the program. -/
inductive Cond
  | update_cond
  | exit_cond (widget : Nat)
  deriving DecidableEq, Repr

/-- The library calls whose order the properties speak about. The `LOG_*` events
carry the name the log line mentions; `free_name`, `free_js_staticfuncs` and
`free_widget` are the three `free` calls of the `error` path of `spawn_widget`;
`abort` is the end of the process. The arguments of `JSObjectCallAsFunction` are
the elements of the array `js_args`, `none` for one that was never written. -/
inductive Event
  | LOG_DEBUG (about : CString)
  | LOG_WARN (about : CString)
  | LOG_ERR (about : CString)
  | g_module_open (libname : CString)
  | JSObjectSetProperty (name : CString) (obj : Nat)
  | pthread_create (widget : Nat) (ret : Nat)
  | pthread_mutex_lock (m : Mutex)
  | pthread_mutex_unlock (m : Mutex)
  | pthread_cond_signal (c : Cond)
  | clock_gettime (now : timespec)
  | pthread_cond_timedwait (c : Cond) (m : Mutex) (abstime : timespec) (ret : Int)
  | pthread_cancel (thread : Nat)
  | pthread_join (thread : Nat)
  | eventfd_write (efd : Nat) (value : Nat)
  | eventfd_read (efd : Nat)
  | free_widgets_active
  | free_name (widget : Nat)
  | free_js_staticfuncs (ptr : Nat)
  | free_widget (widget : Nat)
  | abort
  | JSObjectCallAsFunction (function : Nat) (args : List (Option JSValue))
  deriving DecidableEq, Repr

/-! ## `web_view_callback` -/

/-- The part of JavaScriptCore that `web_view_callback` queries: what the page has
stored in a property, the object a value converts to (`0` when it converts to
none), and whether an object can be called. -/
structure JSApi where
  JSObjectGetProperty : Nat → Nat → CString → JSValue
  JSValueToObject : Nat → JSValue → Nat
  JSObjectIsFunction : Nat → Nat → Bool

/-- The body of the `switch` in `web_view_callback`: the scripting value built for
one tagged value. -/
def js_arg (a : js_callback_arg) : JSValue :=
  match a.type with
  | .kJSTypeBoolean => JSValue.boolean a.value.boolean
  | .kJSTypeNull => JSValue.null
  | .kJSTypeNumber => JSValue.number a.value.number
  | .kJSTypeObject => JSValue.object a.value.object
  | .kJSTypeString => JSValue.string a.value.string
  | .kJSTypeUndefined => JSValue.undefined

/-- The first loop of `web_view_callback` (lines 147 to 171), from counter value `i`
on: while `i < args_len`, `js_args[i]` is set to the scripting value for
`args[i]` and `i` is incremented as an `unsigned short`. The array `js_args` has
`args_len` elements, `none` for an element not written yet. The first argument
is the fuel; the result is `none` when the loop is still running after that many
iterations. -/
def js_args_loop (args : List js_callback_arg) :
    Nat → Nat → List (Option JSValue) → Option (List (Option JSValue))
  | 0, _, _ => none
  | fuel + 1, i, js_args =>
    if h : i < args.length then
      js_args_loop args fuel ((i + 1) % USHRT_RANGE)
        (js_args.set i (some (js_arg args[i])))
    else
      some js_args

/-- The function `web_view_callback`: the value it returns to the main loop and the
events it performs, or `none` when it has not returned within the fuel. -/
def web_view_callback (fuel : Nat) (js : JSApi) (data : js_callback_data) :
    Option (Bool × List Event) :=
  match js_args_loop data.args fuel 0 (List.replicate data.args.length none) with
  | none => none
  | some js_args =>
    if data.widget.js_context = 0 ∨ data.widget.js_object = 0 then
      some (false, [Event.LOG_ERR []])
    else
      let func := js.JSObjectGetProperty data.widget.js_context data.widget.js_object
        "onDataChanged".toList
      let function := js.JSValueToObject data.widget.js_context func
      let signal := Event.pthread_cond_signal Cond.update_cond
      if js.JSObjectIsFunction data.widget.js_context function = false then
        some (false, [signal, Event.LOG_DEBUG data.widget.name])
      else
        some (false, [signal, Event.JSObjectCallAsFunction function js_args])

/-- How many times a trace signals `update_cond`. -/
def signals (tr : List Event) : Nat :=
  tr.count (Event.pthread_cond_signal Cond.update_cond)

/-- The script-side calls of a trace: the function and the argument list of each
`JSObjectCallAsFunction` event, in order. -/
def script_calls : List Event → List (Nat × List (Option JSValue))
  | [] => []
  | Event.JSObjectCallAsFunction f args :: tr => (f, args) :: script_calls tr
  | _ :: tr => script_calls tr

/-- The handler of a widget, in the words of the specification: the object that the
property named `onDataChanged` of the widget's script object converts to. -/
def handler (js : JSApi) (w : widget) : Nat :=
  js.JSValueToObject w.js_context
    (js.JSObjectGetProperty w.js_context w.js_object
      ['o', 'n', 'D', 'a', 't', 'a', 'C', 'h', 'a', 'n', 'g', 'e', 'd'])

/-- The condition of the specification for a script-side call: the widget has a
scripting context and a script object, and its handler is callable. -/
def callable (js : JSApi) (w : widget) : Prop :=
  w.js_context ≠ 0 ∧ w.js_object ≠ 0 ∧ js.JSObjectIsFunction w.js_context (handler js w) = true

instance callable_decidable (js : JSApi) (w : widget) : Decidable (callable js w) := by
  unfold callable
  infer_instance

/-! ## Loading and spawning -/

/-- A loadable widget module, as `g_module_symbol` sees it: the address of
`widget_main` if the module exports it, the address of the table
`widget_js_staticfuncs` if it exports one, and the string its `widget_type`
accessor returns if it has one. -/
structure GModule where
  widget_main : Option Nat
  widget_js_staticfuncs : Option Nat
  widget_type : Option CString
  deriving DecidableEq, Repr

/-- The object `JSObjectMake` creates for a widget: the name of its class, the
table of its static functions, and its private data (the widget). -/
structure JSObject where
  className : CString
  staticFunctions : Nat
  priv : Nat
  deriving DecidableEq, Repr

/-- One entry of the configured list `widgets`: the string `module` and the value
`config`. -/
structure widget_spec where
  module : CString
  config : Nat
  deriving DecidableEq, Repr

/-- The state the spawn path reads and writes.

* `modules`: the modules installed under `LIBDIR`, by the library name given to
  `g_module_build_path`; `g_module_open` succeeds exactly for these.
* `pthread_create_ret`, `pthread_calls`: the value the k-th call of
  `pthread_create` returns, and the number of calls made so far.
* `fresh`: the next unused address or handle.
* `objects`, `globals`: the objects made by `JSObjectMake` and the properties of
  the global object of the scripting context.
* `threads`: the worker threads that have been started.
* `widgets_active`, `widgets_len`: the two file-level variables.
* `trace`: the events performed so far, oldest first.
* `aborted`: whether the process has been aborted; nothing runs after that. -/
structure World where
  modules : List (CString × GModule)
  pthread_create_ret : Nat → Nat
  pthread_calls : Nat
  fresh : Nat
  objects : List (Nat × JSObject)
  globals : List (CString × Nat)
  threads : List Nat
  widgets_active : Option (List (Option widget))
  widgets_len : Nat
  trace : List Event
  aborted : Bool

/-- Appends one event to the trace of a state. -/
def World.emit (W : World) (e : Event) : World :=
  { W with trace := W.trace ++ [e] }

/-- The call `g_module_open(g_module_build_path(LIBDIR, libname), ...)`. -/
def World.g_module_open (W : World) (libname : CString) : Option GModule :=
  (W.modules.find? (fun m => m.1 = libname)).map (fun m => m.2)

/-- The call `JSObjectSetProperty(context, global_obj, name, obj, ...)`: the
property `name` of the global object now holds `obj`. -/
def set_global (globals : List (CString × Nat)) (name : CString) (obj : Nat) :
    List (CString × Nat) :=
  (name, obj) :: globals.filter (fun g => g.1 ≠ name)

/-- The buffer `classname` of `init_widget_js_obj` after
`snprintf(classname, 64, "widget_%s", widget->type)`. -/
def classname (type : CString) : CString :=
  snprintf 64 "widget_".toList type

/-- The buffer `libname` of `spawn_widget` after
`snprintf(libname, 64, "libwidget_%s", name)`. -/
def libname (name : CString) : CString :=
  snprintf 64 "libwidget_".toList name

/-- The function `init_widget_js_obj`: makes the class `widget_<type>` and an object of
it, stores the object in the global object under the class name, and records
context and object in the widget. -/
def init_widget_js_obj (W : World) (context : Nat) (w : widget) : widget × World :=
  let classname := classname w.type
  let class_obj := W.fresh
  let W1 : World :=
    { W with
      fresh := W.fresh + 1
      objects := (class_obj,
        { className := classname, staticFunctions := w.js_staticfuncs, priv := w.self })
        :: W.objects
      globals := set_global W.globals classname class_obj }
  ({ w with js_context := context, js_object := class_obj },
    W1.emit (Event.JSObjectSetProperty classname class_obj))

/-- The `error` path of `spawn_widget` (lines 88 to 97) for the record at `self`:
`free(widget->name)` if the name has been set, `free(widget->js_staticfuncs)` if
that field is not null, `free(widget)`, `return 0`. The field `js_staticfuncs` is
only ever set to the address that `g_module_symbol` gave for the module's table
`widget_js_staticfuncs` (lines 55 and 56), which is not memory from `malloc`:
`free` of it aborts the process. -/
def spawn_widget_error (W : World) (self : Nat) (name_set : Bool) (js_staticfuncs : Nat) :
    Option widget × World :=
  let W1 := if name_set then W.emit (Event.free_name self) else W
  if js_staticfuncs ≠ 0 then
    let W2 := (W1.emit (Event.free_js_staticfuncs js_staticfuncs)).emit Event.abort
    (none, { W2 with aborted := true })
  else
    (none, W1.emit (Event.free_widget self))

/-- The function `spawn_widget`: the widget it returns (`none` for the null pointer of
the `error` path, and when the process is aborted there) and the state it
leaves. When `g_module_symbol` does not find `widget_js_staticfuncs` it has set
the local pointer to null, so the `free` of line 59 does nothing. -/
def spawn_widget (W : World) (bar context config : Nat) (name : CString) :
    Option widget × World :=
  let libname := libname name
  let lib := W.g_module_open libname
  let W1 := W.emit (Event.g_module_open libname)
  let self := W1.fresh
  let W2 : World := { W1 with fresh := W1.fresh + 1 }
  match lib with
  | none => spawn_widget_error (W2.emit (Event.LOG_WARN name)) self false 0
  | some lib =>
    match lib.widget_main with
    | none => spawn_widget_error (W2.emit (Event.LOG_WARN name)) self false 0
    | some _ =>
      let js_staticfuncs : Nat :=
        match lib.widget_js_staticfuncs with
        | some t => t
        | none => 0
      let type : CString :=
        match lib.widget_type with
        | some t => t
        | none => name
      let w : widget :=
        { self := self, bar := bar, config := config, name := name, type := type,
          js_staticfuncs := js_staticfuncs, js_context := 0, js_object := 0, thread := 0 }
      let (w1, W3) := init_widget_js_obj W2 context w
      let ret := W3.pthread_create_ret W3.pthread_calls
      let return_thread := W3.fresh
      let W4 : World :=
        ({ W3 with pthread_calls := W3.pthread_calls + 1 }).emit
          (Event.pthread_create self ret)
      if ret ≠ 0 then
        spawn_widget_error (W4.emit (Event.LOG_ERR name)) self true w1.js_staticfuncs
      else
        (some { w1 with thread := return_thread },
          { W4 with fresh := W4.fresh + 1, threads := return_thread :: W4.threads })

/-- The body of `json_array_foreach` in `wk_window_object_cleared_cb`, from index
`index` on: each remaining entry is spawned and the result is stored in
`widgets_active[index]`. When a spawn aborts the process, nothing follows. -/
def spawn_loop (bar context : Nat) : List widget_spec → Nat → World → World
  | [], _, W => W
  | s :: rest, index, W =>
    let r := spawn_widget W bar context s.config s.module
    if r.2.aborted then
      r.2
    else
      spawn_loop bar context rest (index + 1)
        { r.2 with widgets_active := r.2.widgets_active.map (fun a => a.set index r.1) }

/-- The state of `wk_window_object_cleared_cb` when its loop starts: `widgets_len` is
the size of the array `widgets`, and `widgets_active` a zeroed array of that
size. -/
def spawn_init (W : World) (widgets : List widget_spec) : World :=
  let W1 := W.emit (Event.LOG_DEBUG [])
  let W2 : World :=
    { W1 with
      widgets_len := widgets.length
      widgets_active := some (List.replicate widgets.length none) }
  W2.emit (Event.LOG_DEBUG [])

/-- The function `wk_window_object_cleared_cb`, for a bar whose configuration lists
`widgets`. The lock of line 230 is reached unless a spawn aborted the process. -/
def wk_window_object_cleared_cb (W : World) (bar context : Nat)
    (widgets : List widget_spec) : World :=
  let W1 := spawn_loop bar context widgets 0 (spawn_init W widgets)
  if W1.aborted then
    W1
  else
    W1.emit (Event.pthread_mutex_lock Mutex.web_view_ready_mutex)

/-- The load status of the web view (`WebKitLoadStatus`). -/
inductive WebKitLoadStatus
  | WEBKIT_LOAD_PROVISIONAL
  | WEBKIT_LOAD_COMMITTED
  | WEBKIT_LOAD_FINISHED
  | WEBKIT_LOAD_FIRST_VISUALLY_NON_EMPTY_LAYOUT
  | WEBKIT_LOAD_FAILED
  deriving DecidableEq, Repr

/-- The function `wk_load_status_cb`, given the status the web view reports. -/
def wk_load_status_cb (status : WebKitLoadStatus) : List Event :=
  if status = WebKitLoadStatus.WEBKIT_LOAD_FINISHED then
    [Event.LOG_DEBUG [], Event.pthread_mutex_unlock Mutex.web_view_ready_mutex]
  else
    []

/-- A state in which nothing has been spawned yet. -/
def World.start (modules : List (CString × GModule)) (pthread_create_ret : Nat → Nat) :
    World :=
  { modules := modules, pthread_create_ret := pthread_create_ret, pthread_calls := 0,
    fresh := 1, objects := [], globals := [], threads := [], widgets_active := none,
    widgets_len := 0, trace := [], aborted := false }

/-! ## Shutdown -/

/-- The value `ETIMEDOUT` of `errno.h` (Linux). -/
def ETIMEDOUT : Int := 110

/-- How a run of `join_widget_threads` ends, with the events performed up to there:
it returns, it dereferences a null (or out-of-bounds) entry of `widgets_active`,
or it is still looping when the fuel of the model is used up. -/
inductive Outcome
  | returned (trace : List Event)
  | null_dereference (trace : List Event)
  | out_of_fuel (trace : List Event)
  deriving DecidableEq, Repr

/-- The events of an outcome. -/
def Outcome.trace : Outcome → List Event
  | .returned tr => tr
  | .null_dereference tr => tr
  | .out_of_fuel tr => tr

/-- The first loop of `join_widget_threads`, from counter value `i` on:
`pthread_mutex_lock(&widgets_active[i]->exit_mutex)` for each `i < widgets_len`.
The first argument is the fuel (at most that many iterations are run). -/
def lock_loop (widgets_active : List (Option widget)) (widgets_len : Nat) :
    Nat → Nat → List Event → Outcome
  | 0, _, tr => Outcome.out_of_fuel tr
  | fuel + 1, i, tr =>
    if i < widgets_len then
      match widgets_active[i]? with
      | some (some w) =>
        lock_loop widgets_active widgets_len fuel ((i + 1) % USHRT_RANGE)
          (tr ++ [Event.pthread_mutex_lock (Mutex.exit_mutex w.self)])
      | _ => Outcome.null_dereference tr
    else
      Outcome.returned tr

/-- The body of the second loop of `join_widget_threads` for the widget in slot `i`:
read the clock, add two seconds, wait on the exit condition, then cancel the
thread if the wait returned `ETIMEDOUT` and join it otherwise. -/
def wait_step (now : timespec) (ret : Int) (w : widget) : List Event :=
  let timeout : timespec := { now with tv_sec := now.tv_sec + 2 }
  [Event.clock_gettime now,
   Event.pthread_cond_timedwait (Cond.exit_cond w.self) (Mutex.exit_mutex w.self) timeout ret]
  ++ (if ret = ETIMEDOUT then [Event.LOG_WARN w.name, Event.pthread_cancel w.thread]
      else [Event.pthread_join w.thread])

/-- The second loop of `join_widget_threads`, from counter value `i` on. `clock i` is
what `clock_gettime` reads in the iteration for slot `i`, and `wait_ret i` what
`pthread_cond_timedwait` returns there. -/
def wait_loop (widgets_active : List (Option widget)) (widgets_len : Nat)
    (clock : Nat → timespec) (wait_ret : Nat → Int) :
    Nat → Nat → List Event → Outcome
  | 0, _, tr => Outcome.out_of_fuel tr
  | fuel + 1, i, tr =>
    if i < widgets_len then
      match widgets_active[i]? with
      | some (some w) =>
        wait_loop widgets_active widgets_len clock wait_ret fuel ((i + 1) % USHRT_RANGE)
          (tr ++ wait_step (clock i) (wait_ret i) w)
      | _ => Outcome.null_dereference (tr ++ [Event.clock_gettime (clock i)])
    else
      Outcome.returned tr

/-- The function `join_widget_threads`, on the file-level variables `widgets_active`
(`none` for the null pointer) and `widgets_len` and the eventfd `efd` of the
bar. `fuel` bounds the iterations of each loop. -/
def join_widget_threads (fuel : Nat) (widgets_active : Option (List (Option widget)))
    (widgets_len : Nat) (efd : Nat) (clock : Nat → timespec) (wait_ret : Nat → Int) :
    Outcome :=
  match widgets_active with
  | none => Outcome.returned [Event.LOG_DEBUG []]
  | some arr =>
    if widgets_len > 0 then
      match lock_loop arr widgets_len fuel 0 [Event.LOG_DEBUG []] with
      | Outcome.returned tr =>
        match wait_loop arr widgets_len clock wait_ret fuel 0
            (tr ++ [Event.eventfd_write efd 1]) with
        | Outcome.returned tr2 =>
          Outcome.returned (tr2 ++ [Event.eventfd_read efd, Event.free_widgets_active])
        | o => o
      | o => o
    else
      Outcome.returned [Event.LOG_DEBUG []]

/-! ## Scenarios used in the statements below -/

/-- A module `volume` that exports `widget_main` only. -/
def volume_module : GModule :=
  { widget_main := some 100, widget_js_staticfuncs := none, widget_type := none }

/-- An installation that holds the module `volume` and nothing else. -/
def volume_only : List (CString × GModule) :=
  [("libwidget_volume".toList, volume_module)]

/-- The configured list of the scenario of the specification: `volume`, then
`does_not_exist`. -/
def scenario_specs : List widget_spec :=
  [{ module := "volume".toList, config := 7 },
   { module := "does_not_exist".toList, config := 8 }]

/-- The state after `wk_window_object_cleared_cb` on `scenario_specs`, all threads
starting. -/
def scenario_world : World :=
  wk_window_object_cleared_cb (World.start volume_only (fun _ => 0)) 1 2 scenario_specs

/-- The widget `spawn_widget` returns for `volume` in a fresh state: record 1,
script object 2, thread 3. -/
def volume_widget : widget :=
  { self := 1, bar := 1, config := 7, name := "volume".toList, type := "volume".toList,
    js_staticfuncs := 0, js_context := 2, js_object := 2, thread := 3 }

/-- A widget with context and script object. -/
def widget_a : widget :=
  { self := 1, bar := 1, config := 7, name := "a".toList, type := "a".toList,
    js_staticfuncs := 0, js_context := 2, js_object := 3, thread := 11 }

/-- A second widget. -/
def widget_b : widget :=
  { self := 4, bar := 1, config := 8, name := "b".toList, type := "b".toList,
    js_staticfuncs := 0, js_context := 2, js_object := 5, thread := 12 }

/-- A page in which the property `onDataChanged` of every object is the function
object 9, every other property is undefined, and no other object is callable. -/
def page_with_handler : JSApi :=
  { JSObjectGetProperty := fun _ _ name =>
      if name = "onDataChanged".toList then JSValue.object 9 else JSValue.undefined
    JSValueToObject := fun _ v => match v with
      | JSValue.object r => r
      | _ => 0
    JSObjectIsFunction := fun _ o => o == 9 }

/-- A page that defines no `onDataChanged`. -/
def page_without_handler : JSApi :=
  { JSObjectGetProperty := fun _ _ _ => JSValue.undefined
    JSValueToObject := fun _ v => match v with
      | JSValue.object r => r
      | _ => 0
    JSObjectIsFunction := fun _ _ => false }

/-- The tagged value for the boolean `true`. -/
def arg_true : js_callback_arg :=
  { type := JSType.kJSTypeBoolean,
    value := { boolean := true, number := { bits := 0 }, string := [], object := 0 } }

/-- The tagged value `null`. -/
def arg_null : js_callback_arg :=
  { type := JSType.kJSTypeNull,
    value := { boolean := false, number := { bits := 0 }, string := [], object := 0 } }

/-- A module `funcs` that exports `widget_main` and a table
`widget_js_staticfuncs`, at address 200. -/
def funcs_module : GModule :=
  { widget_main := some 100, widget_js_staticfuncs := some 200, widget_type := none }

/-- An installation that holds the modules `funcs` and `volume`. -/
def funcs_and_volume : List (CString × GModule) :=
  [("libwidget_funcs".toList, funcs_module), ("libwidget_volume".toList, volume_module)]

/-- The configured list `funcs`, then `volume`. -/
def funcs_then_volume : List widget_spec :=
  [{ module := "funcs".toList, config := 7 }, { module := "volume".toList, config := 8 }]

/-- The first `pthread_create` returns 11 (`EAGAIN`), the later ones succeed. -/
def first_thread_fails : Nat → Nat := fun k => if k = 0 then 11 else 0

/-- The tagged value for the string `ok`. -/
def arg_ok : js_callback_arg :=
  { type := JSType.kJSTypeString,
    value := { boolean := false, number := { bits := 0 }, string := "ok".toList, object := 0 } }

/-- A callback for `widget_a` without scripting context, with the one value `ok`. -/
def data_without_context : js_callback_data :=
  { widget := { widget_a with js_context := 0 }, args := [arg_ok] }

/-- A callback for `widget_a` with the one value `ok`. -/
def data_ok : js_callback_data :=
  { widget := widget_a, args := [arg_ok] }

/-- A callback for `widget_a` with 65536 values `null`. -/
def data_65536_null : js_callback_data :=
  { widget := widget_a, args := List.replicate 65536 arg_null }

/-- A callback for `widget_a` with 65536 values `ok`. -/
def data_65536_ok : js_callback_data :=
  { widget := widget_a, args := List.replicate 65536 arg_ok }

/-- A callback for `widget_a` with 65536 values `true`. -/
def data_65536_true : js_callback_data :=
  { widget := widget_a, args := List.replicate 65536 arg_true }

/-- A clock that always reads 100 s, 5 ns. -/
def clock_100 : Nat → timespec := fun _ => { tv_sec := 100, tv_nsec := 5 }

/-- A module `long_type` whose `widget_type` accessor returns a string of 57
bytes. -/
def long_type_module : GModule :=
  { widget_main := some 100, widget_js_staticfuncs := none,
    widget_type := some (List.replicate 57 'x') }

/-- An installation that holds the module `long_type` and nothing else. -/
def long_type_only : List (CString × GModule) :=
  [("libwidget_long_type".toList, long_type_module)]

/-! ## Observations on traces and states -/

/-- Whether an event is the start of a spawn: `spawn_widget` opens the module
first. -/
def Event.is_g_module_open : Event → Bool
  | Event.g_module_open _ => true
  | _ => false

/-- Whether an event acquires or releases the readiness gate
`web_view_ready_mutex`. -/
def Event.is_gate : Event → Bool
  | Event.pthread_mutex_lock Mutex.web_view_ready_mutex => true
  | Event.pthread_mutex_unlock Mutex.web_view_ready_mutex => true
  | _ => false

/-- Whether a trace acquires the readiness gate before its first spawn starts:
the lock is among the events in front of the first `g_module_open`. -/
def acquired_before_first_spawn (tr : List Event) : Bool :=
  (tr.takeWhile (fun e => !e.is_g_module_open)).contains
    (Event.pthread_mutex_lock Mutex.web_view_ready_mutex)

/-- The object the global object of the scripting context holds under `name`, if
any. -/
def World.global (W : World) (name : CString) : Option Nat :=
  (W.globals.find? (fun g => g.1 = name)).map (fun g => g.2)

/-- The lock events of the first loop of `join_widget_threads` for a list of
widgets, in order. -/
def lock_events (ws : List widget) : List Event :=
  ws.map (fun w => Event.pthread_mutex_lock (Mutex.exit_mutex w.self))

/-- The events of the second loop of `join_widget_threads` for a list of widgets
that sit in the slots `i`, `i + 1`, ... -/
def wait_events (clock : Nat → timespec) (wait_ret : Nat → Int) :
    List widget → Nat → List Event
  | [], _ => []
  | w :: ws, i => wait_step (clock i) (wait_ret i) w ++ wait_events clock wait_ret ws (i + 1)

/-- The three ways `spawn_widget` takes its `error` path in state `W` for the module
`name`: the module cannot be opened, it does not export `widget_main`, or
`pthread_create` returns non-zero. -/
def spawn_fails (W : World) (name : CString) : Prop :=
  match W.g_module_open (libname name) with
  | none => True
  | some lib => lib.widget_main = none ∨ W.pthread_create_ret W.pthread_calls ≠ 0

/-! ## Properties of `web_view_callback` -/

/-- The array `js_args` after the first loop, for a list the counter can index: the
loop returns, and element `j` is the scripting value for `args[j]`. -/
theorem js_args_loop_returns (args : List js_callback_arg)
    (hlen : args.length < USHRT_RANGE) :
    ∀ (fuel i : Nat) (arr : List (Option JSValue)), i ≤ args.length →
      args.length - i < fuel → arr.length = args.length →
      ∃ r : List (Option JSValue),
        js_args_loop args fuel i arr = some r
          ∧ r.length = args.length
          ∧ (∀ j : Nat, j < i → r[j]? = arr[j]?)
          ∧ ∀ (j : Nat) (a : js_callback_arg), i ≤ j → args[j]? = some a →
              r[j]? = some (some (js_arg a)) := by
  intro fuel
  induction fuel with
  | zero => intro i arr _ h; omega
  | succ fuel ih =>
    intro i arr hi hf harr
    rw [js_args_loop]
    by_cases hlt : i < args.length
    · have hmod : (i + 1) % USHRT_RANGE = i + 1 := Nat.mod_eq_of_lt (by omega)
      simp only [hlt, dite_true, hmod]
      obtain ⟨r, h1, h2, h3, h4⟩ :=
        ih (i + 1) (arr.set i (some (js_arg args[i]))) (by omega) (by omega) (by simpa using harr)
      refine ⟨r, h1, h2, ?_, ?_⟩
      · intro j hj
        rw [h3 j (by omega), List.getElem?_set_ne (by omega)]
      · intro j a hij ha
        rcases Nat.eq_or_lt_of_le hij with rfl | hlt2
        · rw [h3 i (by omega), List.getElem?_set_self (by omega)]
          rw [List.getElem?_eq_getElem hlt] at ha
          simp only [Option.some.injEq] at ha
          rw [ha]
        · exact h4 j a (by omega) ha
    · have : i = args.length := by omega
      subst this
      simp only [Nat.lt_irrefl, dite_false]
      refine ⟨arr, rfl, harr, fun _ _ => rfl, ?_⟩
      intro j a hj ha
      have := (List.getElem?_eq_some_iff.mp ha).1
      omega

/-- The first loop never ends on a list of 65536 values or more: the counter wraps
to 0 before it reaches `args_len`. -/
theorem js_args_loop_wraps (args : List js_callback_arg)
    (hlen : USHRT_RANGE ≤ args.length) :
    ∀ (fuel i : Nat) (arr : List (Option JSValue)), i < USHRT_RANGE →
      js_args_loop args fuel i arr = none := by
  intro fuel
  induction fuel with
  | zero => intro i arr _; rfl
  | succ fuel ih =>
    intro i arr hi
    have hlt : i < args.length := by omega
    rw [js_args_loop]
    simp only [hlt, dite_true]
    exact ih _ _ (Nat.mod_lt _ (by decide))

/-- The function `web_view_callback` never returns on 65536 values or more. -/
theorem web_view_callback_wraps (fuel : Nat) (js : JSApi) (data : js_callback_data)
    (hlen : USHRT_RANGE ≤ data.args.length) :
    web_view_callback fuel js data = none := by
  unfold web_view_callback
  rw [js_args_loop_wraps data.args hlen fuel 0 _ (by decide)]

/-- The function `web_view_callback` on a list the counter can index: it returns, and
the array it would pass to the handler is the list of the scripting values of
the tagged values. -/
theorem web_view_callback_returns (fuel : Nat) (js : JSApi) (data : js_callback_data)
    (hlen : data.args.length < USHRT_RANGE) (hfuel : data.args.length < fuel) :
    ∃ vals : List (Option JSValue),
      vals.length = data.args.length
        ∧ (∀ (j : Nat) (a : js_callback_arg), data.args[j]? = some a →
            vals[j]? = some (some (js_arg a)))
        ∧ web_view_callback fuel js data =
            if data.widget.js_context = 0 ∨ data.widget.js_object = 0 then
              some (false, [Event.LOG_ERR []])
            else if js.JSObjectIsFunction data.widget.js_context
                (js.JSValueToObject data.widget.js_context
                  (js.JSObjectGetProperty data.widget.js_context data.widget.js_object
                    "onDataChanged".toList)) = false then
              some (false, [Event.pthread_cond_signal Cond.update_cond,
                Event.LOG_DEBUG data.widget.name])
            else
              some (false, [Event.pthread_cond_signal Cond.update_cond,
                Event.JSObjectCallAsFunction
                  (js.JSValueToObject data.widget.js_context
                    (js.JSObjectGetProperty data.widget.js_context data.widget.js_object
                      "onDataChanged".toList)) vals]) := by
  obtain ⟨r, h1, h2, -, h4⟩ :=
    js_args_loop_returns data.args hlen fuel 0 (List.replicate data.args.length none)
      (by omega) (by omega) (by simp)
  refine ⟨r, h2, fun j a ha => h4 j a (by omega) ha, ?_⟩
  unfold web_view_callback
  rw [h1]

/-- The name the code looks up, spelled out. -/
theorem ondatachanged_name :
    "onDataChanged".toList = ['o', 'n', 'D', 'a', 't', 'a', 'C', 'h', 'a', 'n', 'g', 'e', 'd'] := by
  decide

/-- C2, counterexample. For a widget without scripting context `web_view_callback`
logs the error and returns without signalling `update_cond`: no amount of fuel
gives a run with one signal. And on 65536 values it never returns, so it never
signals either. -/
theorem web_view_callback_not_signalled :
    web_view_callback 2 page_with_handler data_without_context
        = some (false, [Event.LOG_ERR []])
      ∧ signals [Event.LOG_ERR []] = 0
      ∧ (¬ ∃ fuel tr, web_view_callback fuel page_with_handler data_without_context
            = some (false, tr) ∧ signals tr = 1)
      ∧ ¬ ∃ fuel r, web_view_callback fuel page_with_handler data_65536_null = some r := by
  refine ⟨by decide, by decide, ?_, ?_⟩
  · rintro ⟨fuel, tr, h, hs⟩
    rcases fuel with _ | _ | fuel
    · simp [web_view_callback, js_args_loop] at h
    · simp [web_view_callback, js_args_loop, data_without_context, USHRT_RANGE] at h
    · obtain ⟨vals, -, -, hr⟩ :=
        web_view_callback_returns (fuel + 2) page_with_handler data_without_context
          (by decide) (by simp [data_without_context])
      rw [hr] at h
      simp [data_without_context, widget_a] at h
      rw [← h] at hs
      simp [signals] at hs
  · rintro ⟨fuel, r, h⟩
    rw [web_view_callback_wraps fuel _ _ (by
    show USHRT_RANGE ≤ (List.replicate 65536 _).length
    rw [List.length_replicate]
    exact Nat.le_refl _)] at h
    cases h

/-- C2, as the code has it. On fewer than 65536 values `web_view_callback` returns
(given fuel for more iterations than there are values), and `update_cond` is
signalled exactly once when the widget has a scripting context and a script
object, whether or not `onDataChanged` is callable, and not at all when the
context or the object is missing. -/
theorem web_view_callback_signals (fuel : Nat) (js : JSApi) (data : js_callback_data)
    (hlen : data.args.length < USHRT_RANGE) (hfuel : data.args.length < fuel) :
    ∃ tr : List Event,
      web_view_callback fuel js data = some (false, tr)
        ∧ (data.widget.js_context ≠ 0 ∧ data.widget.js_object ≠ 0 → signals tr = 1)
        ∧ (data.widget.js_context = 0 ∨ data.widget.js_object = 0 → signals tr = 0) := by
  obtain ⟨vals, -, -, hr⟩ := web_view_callback_returns fuel js data hlen hfuel
  rw [hr]
  generalize js.JSValueToObject data.widget.js_context
    (js.JSObjectGetProperty data.widget.js_context data.widget.js_object
      "onDataChanged".toList) = fn
  by_cases h : data.widget.js_context = 0 ∨ data.widget.js_object = 0
  · refine ⟨[Event.LOG_ERR []], by simp [h], ?_, ?_⟩
    · rintro ⟨h1, h2⟩
      rcases h with h | h
      · exact absurd h h1
      · exact absurd h h2
    · intro _
      simp [signals]
  · cases hf : js.JSObjectIsFunction data.widget.js_context fn
    · exact ⟨[Event.pthread_cond_signal Cond.update_cond, Event.LOG_DEBUG data.widget.name],
        by simp [h], fun _ => by simp [signals], fun h3 => absurd h3 h⟩
    · exact ⟨[Event.pthread_cond_signal Cond.update_cond,
          Event.JSObjectCallAsFunction fn vals],
        by simp [h], fun _ => by simp [signals], fun h3 => absurd h3 h⟩

/-- C2, witness: `widget_a` has context and object and the page defines no handler;
the callback with the one value `ok` signals `update_cond` once. -/
theorem web_view_callback_signals_witness :
    (data_ok.args.length < USHRT_RANGE ∧ data_ok.args.length < 2)
      ∧ ∃ tr : List Event,
          web_view_callback 2 page_without_handler data_ok = some (false, tr)
            ∧ (data_ok.widget.js_context ≠ 0 ∧ data_ok.widget.js_object ≠ 0 → signals tr = 1)
            ∧ (data_ok.widget.js_context = 0 ∨ data_ok.widget.js_object = 0 →
                signals tr = 0) :=
  ⟨by decide, web_view_callback_signals 2 page_without_handler data_ok (by decide) (by decide)⟩

/-- C3, counterexample. On 65536 values `web_view_callback` does not return false:
it does not return at all, whatever the fuel, because the `unsigned short`
counter of its first loop wraps to 0 before reaching `args_len`. -/
theorem web_view_callback_never_returns :
    ¬ ∃ fuel r, web_view_callback fuel page_with_handler data_65536_ok = some r := by
  rintro ⟨fuel, r, h⟩
  rw [web_view_callback_wraps fuel _ _ (by
    show USHRT_RANGE ≤ (List.replicate 65536 _).length
    rw [List.length_replicate]
    exact Nat.le_refl _)] at h
  cases h

/-- C3, as the code has it. On fewer than 65536 values `web_view_callback` returns
false (given fuel for more iterations than there are values) and calls the
script-side handler at most once: once when the widget has a scripting context
and a script object and its property `onDataChanged` is callable, and not at all
otherwise. -/
theorem web_view_callback_one_shot (fuel : Nat) (js : JSApi) (data : js_callback_data)
    (hlen : data.args.length < USHRT_RANGE) (hfuel : data.args.length < fuel) :
    ∃ tr : List Event,
      web_view_callback fuel js data = some (false, tr)
        ∧ (script_calls tr).length ≤ 1
        ∧ ((script_calls tr).length = 1 ↔ callable js data.widget)
        ∧ (¬ callable js data.widget → (script_calls tr).length = 0) := by
  obtain ⟨vals, -, -, hr⟩ := web_view_callback_returns fuel js data hlen hfuel
  rw [hr, ondatachanged_name]
  unfold callable handler
  generalize js.JSValueToObject data.widget.js_context
    (js.JSObjectGetProperty data.widget.js_context data.widget.js_object
      ['o', 'n', 'D', 'a', 't', 'a', 'C', 'h', 'a', 'n', 'g', 'e', 'd']) = fn
  by_cases h : data.widget.js_context = 0 ∨ data.widget.js_object = 0
  · have h2 : ¬ (data.widget.js_context ≠ 0 ∧ data.widget.js_object ≠ 0 ∧
        js.JSObjectIsFunction data.widget.js_context fn = true) := by
      rintro ⟨h1, h2, -⟩
      rcases h with h | h
      · exact h1 h
      · exact h2 h
    exact ⟨[Event.LOG_ERR []], by simp [h], by simp [script_calls],
      by simpa [script_calls] using h2, by simp [script_calls]⟩
  · have h1 : data.widget.js_context ≠ 0 := fun e => h (Or.inl e)
    have h2 : data.widget.js_object ≠ 0 := fun e => h (Or.inr e)
    cases hf : js.JSObjectIsFunction data.widget.js_context fn
    · exact ⟨[Event.pthread_cond_signal Cond.update_cond, Event.LOG_DEBUG data.widget.name],
        by simp [h], by simp [script_calls], by simp [script_calls, h1, h2],
        by simp [script_calls]⟩
    · exact ⟨[Event.pthread_cond_signal Cond.update_cond,
          Event.JSObjectCallAsFunction fn vals],
        by simp [h], by simp [script_calls], by simp [script_calls, h1, h2],
        by simp [script_calls, h1, h2]⟩

/-- C3, witness: on the page with a handler the callback for `widget_a` returns false
after one call; on the page without one it returns false after none. -/
theorem web_view_callback_one_shot_witness :
    (data_ok.args.length < USHRT_RANGE ∧ data_ok.args.length < 2)
      ∧ callable page_with_handler data_ok.widget
      ∧ ¬ callable page_without_handler data_ok.widget
      ∧ web_view_callback 2 page_with_handler data_ok
          = some (false, [Event.pthread_cond_signal Cond.update_cond,
              Event.JSObjectCallAsFunction 9 [some (JSValue.string "ok".toList)]])
      ∧ web_view_callback 2 page_without_handler data_ok
          = some (false, [Event.pthread_cond_signal Cond.update_cond,
              Event.LOG_DEBUG "a".toList])
      ∧ ∃ tr : List Event,
          web_view_callback 2 page_with_handler data_ok = some (false, tr)
            ∧ (script_calls tr).length ≤ 1
            ∧ ((script_calls tr).length = 1 ↔ callable page_with_handler data_ok.widget)
            ∧ (¬ callable page_with_handler data_ok.widget →
                (script_calls tr).length = 0) :=
  ⟨by decide, by decide, by decide, by decide, by decide,
    web_view_callback_one_shot 2 page_with_handler data_ok (by decide) (by decide)⟩

/-- C4, counterexample. The page has a callable `onDataChanged` for `widget_a`, yet on
65536 values the handler is never invoked: `web_view_callback` has no run, for
any fuel, that contains a script-side call. -/
theorem web_view_callback_never_calls :
    callable page_with_handler data_65536_true.widget
      ∧ ¬ ∃ fuel tr, web_view_callback fuel page_with_handler data_65536_true
            = some (false, tr) ∧ script_calls tr ≠ [] := by
  refine ⟨by decide, ?_⟩
  rintro ⟨fuel, tr, h, -⟩
  rw [web_view_callback_wraps fuel _ _ (by
    show USHRT_RANGE ≤ (List.replicate 65536 _).length
    rw [List.length_replicate]
    exact Nat.le_refl _)] at h
  cases h

/-- C4, as the code has it. On a tagged-value list of n values, n below 65536, when
the property `onDataChanged` of the widget's script object is callable,
`web_view_callback` makes one script-side call, to that handler, with exactly n
arguments in the same order: argument `i` has been written, has the kind named
by the tag of `args[i]` and carries the payload of `args[i]` (the same boolean,
number, string or object handle). -/
theorem web_view_callback_arguments (fuel : Nat) (js : JSApi) (data : js_callback_data)
    (hlen : data.args.length < USHRT_RANGE) (hfuel : data.args.length < fuel)
    (hc : callable js data.widget) :
    ∃ (tr : List Event) (vals : List (Option JSValue)),
      web_view_callback fuel js data = some (false, tr)
        ∧ script_calls tr = [(handler js data.widget, vals)]
        ∧ vals.length = data.args.length
        ∧ ∀ (i : Nat) (a : js_callback_arg), data.args[i]? = some a →
            ∃ v, vals[i]? = some (some v)
              ∧ JSValueGetType v = a.type
              ∧ (a.type = JSType.kJSTypeBoolean → v = JSValue.boolean a.value.boolean)
              ∧ (a.type = JSType.kJSTypeNumber → v = JSValue.number a.value.number)
              ∧ (a.type = JSType.kJSTypeString → v = JSValue.string a.value.string)
              ∧ (a.type = JSType.kJSTypeObject → v = JSValue.object a.value.object)
              ∧ (a.type = JSType.kJSTypeNull → v = JSValue.null)
              ∧ (a.type = JSType.kJSTypeUndefined → v = JSValue.undefined) := by
  obtain ⟨vals, hv1, hv2, hr⟩ := web_view_callback_returns fuel js data hlen hfuel
  obtain ⟨h1, h2, h3⟩ := hc
  rw [ondatachanged_name] at hr
  unfold handler at h3 ⊢
  generalize js.JSValueToObject data.widget.js_context
    (js.JSObjectGetProperty data.widget.js_context data.widget.js_object
      ['o', 'n', 'D', 'a', 't', 'a', 'C', 'h', 'a', 'n', 'g', 'e', 'd']) = fn at hr h3 ⊢
  have h12 : ¬ (data.widget.js_context = 0 ∨ data.widget.js_object = 0) := by
    rintro (h | h)
    · exact h1 h
    · exact h2 h
  refine ⟨[Event.pthread_cond_signal Cond.update_cond, Event.JSObjectCallAsFunction fn vals],
    vals, hr.trans (by simp [h12, h3]), by simp [script_calls], hv1, ?_⟩
  intro i a ha
  refine ⟨js_arg a, hv2 i a ha, ?_⟩
  obtain ⟨t, v⟩ := a
  cases t <;> simp [js_arg, JSValueGetType]

/-- C4, witness: the string `ok`, sent to the page with a handler, arrives as the one
argument of the one call to the function object 9, and is the scripting string
`ok`. -/
theorem web_view_callback_arguments_witness :
    (data_ok.args.length < USHRT_RANGE ∧ data_ok.args.length < 2
        ∧ callable page_with_handler data_ok.widget)
      ∧ web_view_callback 2 page_with_handler data_ok
          = some (false, [Event.pthread_cond_signal Cond.update_cond,
              Event.JSObjectCallAsFunction 9 [some (JSValue.string "ok".toList)]])
      ∧ ∃ (tr : List Event) (vals : List (Option JSValue)),
          web_view_callback 2 page_with_handler data_ok = some (false, tr)
            ∧ script_calls tr = [(handler page_with_handler data_ok.widget, vals)]
            ∧ vals.length = data_ok.args.length :=
  ⟨by decide, by decide,
    (web_view_callback_arguments 2 page_with_handler data_ok (by decide) (by decide)
      (by decide)).imp fun _ h => h.imp fun _ h => ⟨h.1, h.2.1, h.2.2.1⟩⟩

/-! ## Properties of the spawn path -/

/-- The function `spawn_widget` leaves the two file-level variables alone. -/
theorem spawn_widget_widgets_active (W : World) (bar context config : Nat) (name : CString) :
    (spawn_widget W bar context config name).2.widgets_active = W.widgets_active
      ∧ (spawn_widget W bar context config name).2.widgets_len = W.widgets_len := by
  unfold spawn_widget
  dsimp only
  split
  · simp [spawn_widget_error, World.emit]
  · split
    · simp [spawn_widget_error, World.emit]
    · simp only [init_widget_js_obj, World.emit, spawn_widget_error]
      split
      · split <;> simp
      · simp

/-- The function `spawn_widget` returns no widget exactly on its three failures. -/
theorem spawn_widget_none_iff (W : World) (bar context config : Nat) (name : CString) :
    (spawn_widget W bar context config name).1 = none ↔ spawn_fails W name := by
  unfold spawn_widget spawn_fails
  dsimp only
  split
  · simp [spawn_widget_error]
  · split
    · simp_all [spawn_widget_error]
    · simp only [init_widget_js_obj, World.emit, spawn_widget_error]
      split
      · split <;> simp_all
      · simp_all

/-- What the spawn loop leaves in `widgets_active` when no spawn aborts the process:
the slots below `index` are kept, and slot `index + k` holds the result of the
spawn of entry `k`. -/
theorem spawn_loop_slots (bar context : Nat) :
    ∀ (l : List widget_spec) (index : Nat) (W : World) (arr : List (Option widget)),
      W.widgets_active = some arr → index + l.length ≤ arr.length →
      (spawn_loop bar context l index W).aborted = false →
      ∃ reg : List (Option widget),
        (spawn_loop bar context l index W).widgets_active = some reg
          ∧ reg.length = arr.length
          ∧ (spawn_loop bar context l index W).widgets_len = W.widgets_len
          ∧ (∀ j : Nat, j < index → reg[j]? = arr[j]?)
          ∧ ∀ (k : Nat) (s : widget_spec), l[k]? = some s →
              reg[index + k]? = some
                (spawn_widget (spawn_loop bar context (l.take k) index W)
                  bar context s.config s.module).1 := by
  intro l
  induction l with
  | nil =>
    intro index W arr hW _ _
    exact ⟨arr, by simp [spawn_loop, hW], rfl, by simp [spawn_loop], fun _ _ => rfl,
      by simp⟩
  | cons s rest ih =>
    intro index W arr hW hlen hab
    have hact := (spawn_widget_widgets_active W bar context s.config s.module).1
    have hwl := (spawn_widget_widgets_active W bar context s.config s.module).2
    simp only [List.length_cons] at hlen
    have hstep : (spawn_widget W bar context s.config s.module).2.aborted = false := by
      cases h : (spawn_widget W bar context s.config s.module).2.aborted with
      | false => rfl
      | true =>
        rw [spawn_loop] at hab
        simp [h] at hab
    have hloop : ∀ rest2 : List widget_spec,
        spawn_loop bar context (s :: rest2) index W
          = spawn_loop bar context rest2 (index + 1)
              { (spawn_widget W bar context s.config s.module).2 with
                widgets_active :=
                  (spawn_widget W bar context s.config s.module).2.widgets_active.map
                    (fun a => a.set index (spawn_widget W bar context s.config s.module).1) } := by
      intro rest2
      rw [spawn_loop]
      simp [hstep]
    rw [hloop rest] at hab ⊢
    obtain ⟨reg, h1, h2, h3, h4, h5⟩ :=
      ih (index + 1) _ (arr.set index (spawn_widget W bar context s.config s.module).1)
        (by simp [hact, hW]) (by simp; omega) hab
    refine ⟨reg, h1, ?_, ?_, ?_, ?_⟩
    · simpa using h2
    · simpa [hwl] using h3
    · intro j hj
      rw [h4 j (by omega)]
      rw [List.getElem?_set_ne (by omega)]
    · intro k t hk
      cases k with
      | zero =>
        simp only [List.getElem?_cons_zero, Option.some.injEq] at hk
        subst hk
        rw [Nat.add_zero, h4 index (by omega)]
        simp only [List.take_zero, spawn_loop]
        rw [List.getElem?_set_self (by omega)]
      | succ k =>
        simp only [List.getElem?_cons_succ] at hk
        have := h5 k t hk
        rw [show index + (k + 1) = index + 1 + k by omega, this]
        rw [List.take_succ_cons, hloop]

/-- The registry after a run of `wk_window_object_cleared_cb` in which no spawn aborts
the process: `widgets_len` is the number N of configured entries,
`widgets_active` has N slots, and slot `i` holds what `spawn_widget` returned for
entry `i` in the state the first `i` spawns left, null exactly when that spawn
failed. -/
theorem wk_window_object_cleared_cb_registry (W : World) (bar context : Nat)
    (widgets : List widget_spec)
    (hab : (wk_window_object_cleared_cb W bar context widgets).aborted = false) :
    (wk_window_object_cleared_cb W bar context widgets).widgets_len = widgets.length
      ∧ ∃ reg : List (Option widget),
          (wk_window_object_cleared_cb W bar context widgets).widgets_active = some reg
            ∧ reg.length = widgets.length
            ∧ ∀ (i : Nat) (s : widget_spec), widgets[i]? = some s →
                reg[i]? = some
                  (spawn_widget
                    (spawn_loop bar context (widgets.take i) 0 (spawn_init W widgets))
                    bar context s.config s.module).1
                ∧ (reg[i]? = some none ↔
                    spawn_fails
                      (spawn_loop bar context (widgets.take i) 0 (spawn_init W widgets))
                      s.module) := by
  have hab2 : (spawn_loop bar context widgets 0 (spawn_init W widgets)).aborted = false := by
    cases h : (spawn_loop bar context widgets 0 (spawn_init W widgets)).aborted with
    | false => rfl
    | true =>
      simp [wk_window_object_cleared_cb, h] at hab
  have hcb : wk_window_object_cleared_cb W bar context widgets
      = (spawn_loop bar context widgets 0 (spawn_init W widgets)).emit
          (Event.pthread_mutex_lock Mutex.web_view_ready_mutex) := by
    simp [wk_window_object_cleared_cb, hab2]
  obtain ⟨reg, h1, h2, h3, -, h5⟩ :=
    spawn_loop_slots bar context widgets 0 (spawn_init W widgets)
      (List.replicate widgets.length none) (by simp [spawn_init, World.emit]) (by simp) hab2
  rw [hcb]
  refine ⟨?_, reg, ?_, ?_, ?_⟩
  · simpa [World.emit, spawn_init] using h3
  · simpa [World.emit] using h1
  · simpa using h2
  · intro i s hi
    have h := h5 i s hi
    rw [Nat.zero_add] at h
    refine ⟨h, ?_⟩
    rw [h, ← spawn_widget_none_iff _ bar context s.config s.module]
    simp

/-- The registry of the scenario of the specification: `volume`, `does_not_exist`
gives two slots, a widget and null, and no spawn aborts. -/
theorem wk_window_object_cleared_cb_registry_instance :
    scenario_world.aborted = false
      ∧ scenario_world.widgets_len = 2
      ∧ scenario_world.widgets_active.map (fun reg => reg.map Option.isSome)
          = some [true, false] := by
  decide

/-- C1, at the failing input. The modules `funcs` and `volume` are installed, `funcs`
exports a table `widget_js_staticfuncs`, the configured list is `funcs`, `volume`,
and `pthread_create` fails for `funcs`. The `error` path of `spawn_widget` then
calls `free` on the address of the module's table and the process is aborted:
`volume` is never spawned (its module is not opened, no thread is started, its
slot stays null although its spawn would succeed), and the end of
`wk_window_object_cleared_cb` is not reached. When the thread of `funcs` starts,
both slots hold widgets. -/
theorem wk_window_object_cleared_cb_aborts :
    (wk_window_object_cleared_cb (World.start funcs_and_volume first_thread_fails) 1 2
        funcs_then_volume).aborted = true
      ∧ (wk_window_object_cleared_cb (World.start funcs_and_volume first_thread_fails) 1 2
          funcs_then_volume).trace.getLast? = some Event.abort
      ∧ Event.free_js_staticfuncs 200 ∈
          (wk_window_object_cleared_cb (World.start funcs_and_volume first_thread_fails) 1 2
            funcs_then_volume).trace
      ∧ Event.g_module_open "libwidget_volume".toList ∉
          (wk_window_object_cleared_cb (World.start funcs_and_volume first_thread_fails) 1 2
            funcs_then_volume).trace
      ∧ (wk_window_object_cleared_cb (World.start funcs_and_volume first_thread_fails) 1 2
          funcs_then_volume).threads = []
      ∧ (wk_window_object_cleared_cb (World.start funcs_and_volume first_thread_fails) 1 2
          funcs_then_volume).widgets_active = some [none, none]
      ∧ ((spawn_widget (World.start funcs_and_volume (fun _ => 0)) 1 2 8
          "volume".toList).1).isSome = true
      ∧ (wk_window_object_cleared_cb (World.start funcs_and_volume (fun _ => 0)) 1 2
          funcs_then_volume).widgets_active.map (fun reg => reg.map Option.isSome)
          = some [true, true] := by
  decide

/-- The events of one `spawn_widget`: `g_module_open` first, then events that are
neither a start of a spawn nor an operation on the readiness gate. -/
theorem spawn_widget_trace (W : World) (bar context config : Nat) (name : CString) :
    ∃ evs : List Event,
      (spawn_widget W bar context config name).2.trace
          = W.trace ++ Event.g_module_open (libname name) :: evs
        ∧ (∀ e ∈ evs, e.is_gate = false)
        ∧ evs.countP Event.is_g_module_open = 0 := by
  unfold spawn_widget
  dsimp only
  split
  · exact ⟨[Event.LOG_WARN name, Event.free_widget W.fresh],
      by simp [spawn_widget_error, World.emit], by simp [Event.is_gate],
      by simp [Event.is_g_module_open]⟩
  · split
    · exact ⟨[Event.LOG_WARN name, Event.free_widget W.fresh],
        by simp [spawn_widget_error, World.emit], by simp [Event.is_gate],
        by simp [Event.is_g_module_open]⟩
    · rename_i lib _ _ _ _
      simp only [init_widget_js_obj, World.emit, spawn_widget_error]
      split
      · split
        · rename_i hsf
          exact ⟨[Event.JSObjectSetProperty
              (classname (match lib.widget_type with
                | some t => t
                | none => name)) (W.fresh + 1),
              Event.pthread_create W.fresh (W.pthread_create_ret W.pthread_calls),
              Event.LOG_ERR name, Event.free_name W.fresh,
              Event.free_js_staticfuncs (match lib.widget_js_staticfuncs with
                | some t => t
                | none => 0),
              Event.abort],
            by simp, by simp [Event.is_gate], by simp [Event.is_g_module_open]⟩
        · exact ⟨[Event.JSObjectSetProperty
              (classname (match lib.widget_type with
                | some t => t
                | none => name)) (W.fresh + 1),
              Event.pthread_create W.fresh (W.pthread_create_ret W.pthread_calls),
              Event.LOG_ERR name, Event.free_name W.fresh, Event.free_widget W.fresh],
            by simp, by simp [Event.is_gate], by simp [Event.is_g_module_open]⟩
      · exact ⟨[Event.JSObjectSetProperty
            (classname (match lib.widget_type with
              | some t => t
              | none => name)) (W.fresh + 1),
            Event.pthread_create W.fresh (W.pthread_create_ret W.pthread_calls)],
          by simp, by simp [Event.is_gate], by simp [Event.is_g_module_open]⟩

/-- The events of the spawn loop: no operation on the readiness gate, and, when no
spawn aborts the process, one start of a spawn for each entry. -/
theorem spawn_loop_trace (bar context : Nat) :
    ∀ (l : List widget_spec) (index : Nat) (W : World),
      ∃ evs : List Event,
        (spawn_loop bar context l index W).trace = W.trace ++ evs
          ∧ (∀ e ∈ evs, e.is_gate = false)
          ∧ ((spawn_loop bar context l index W).aborted = false →
              evs.countP Event.is_g_module_open = l.length) := by
  intro l
  induction l with
  | nil => intro index W; exact ⟨[], by simp [spawn_loop], by simp, by simp⟩
  | cons s rest ih =>
    intro index W
    obtain ⟨e1, h1, h2, h3⟩ := spawn_widget_trace W bar context s.config s.module
    cases hstep : (spawn_widget W bar context s.config s.module).2.aborted with
    | true =>
      refine ⟨Event.g_module_open (libname s.module) :: e1, ?_, ?_, ?_⟩
      · rw [spawn_loop]
        simp only [hstep, if_true]
        exact h1
      · intro e he
        simp only [List.mem_cons] at he
        rcases he with rfl | he
        · rfl
        · exact h2 e he
      · intro hab
        rw [spawn_loop] at hab
        simp [hstep] at hab
    | false =>
      have hloop : spawn_loop bar context (s :: rest) index W
          = spawn_loop bar context rest (index + 1)
              { (spawn_widget W bar context s.config s.module).2 with
                widgets_active :=
                  (spawn_widget W bar context s.config s.module).2.widgets_active.map
                    (fun a => a.set index (spawn_widget W bar context s.config s.module).1) } := by
        rw [spawn_loop]
        simp [hstep]
      obtain ⟨e2, k1, k2, k3⟩ := ih (index + 1)
        { (spawn_widget W bar context s.config s.module).2 with
          widgets_active := (spawn_widget W bar context s.config s.module).2.widgets_active.map
            (fun a => a.set index (spawn_widget W bar context s.config s.module).1) }
      refine ⟨Event.g_module_open (libname s.module) :: e1 ++ e2, ?_, ?_, ?_⟩
      · rw [hloop, k1]
        simp [h1]
      · intro e he
        simp only [List.cons_append, List.mem_cons, List.mem_append] at he
        rcases he with rfl | he | he
        · rfl
        · exact h2 e he
        · exact k2 e he
      · intro hab
        rw [hloop] at hab
        simp [List.countP_cons, List.countP_append, h3, k3 hab, Event.is_g_module_open]

/-- C8, as the code has it. In the trace of a run of `wk_window_object_cleared_cb`
that reaches its end (no spawn aborts the process), the readiness gate is
acquired once, as the last event: the events in front of it hold the start of
all N spawns and neither acquire nor release the gate. The gate is released by
`wk_load_status_cb` when the load status is "finished", and by no other
status. -/
theorem readiness_gate_acquired_after_spawning (W : World) (bar context : Nat)
    (widgets : List widget_spec)
    (hab : (wk_window_object_cleared_cb W bar context widgets).aborted = false) :
    (∃ evs : List Event,
        (wk_window_object_cleared_cb W bar context widgets).trace
            = W.trace ++ evs ++ [Event.pthread_mutex_lock Mutex.web_view_ready_mutex]
          ∧ (∀ e ∈ evs, e.is_gate = false)
          ∧ evs.countP Event.is_g_module_open = widgets.length)
      ∧ ∀ status : WebKitLoadStatus,
          Event.pthread_mutex_unlock Mutex.web_view_ready_mutex ∈ wk_load_status_cb status
            ↔ status = WebKitLoadStatus.WEBKIT_LOAD_FINISHED := by
  constructor
  · have hab2 : (spawn_loop bar context widgets 0 (spawn_init W widgets)).aborted = false := by
      cases h : (spawn_loop bar context widgets 0 (spawn_init W widgets)).aborted with
      | false => rfl
      | true =>
        simp [wk_window_object_cleared_cb, h] at hab
    obtain ⟨evs, h1, h2, h3⟩ := spawn_loop_trace bar context widgets 0 (spawn_init W widgets)
    refine ⟨[Event.LOG_DEBUG [], Event.LOG_DEBUG []] ++ evs, ?_, ?_, ?_⟩
    · have h0 : (spawn_init W widgets).trace
          = W.trace ++ [Event.LOG_DEBUG [], Event.LOG_DEBUG []] := by
        simp [spawn_init, World.emit]
      rw [h0] at h1
      simp [wk_window_object_cleared_cb, hab2, World.emit, h1]
    · intro e he
      simp only [List.cons_append, List.nil_append, List.mem_cons] at he
      rcases he with rfl | rfl | he
      · rfl
      · rfl
      · exact h2 e he
    · simp [List.countP_cons, h3 hab2, Event.is_g_module_open]
  · intro status
    cases status <;> simp [wk_load_status_cb]

/-- C8, witness: the run for `volume`, `does_not_exist` reaches its end; the lock of
the gate is its last event, behind the two starts of a spawn. -/
theorem readiness_gate_acquired_after_spawning_witness :
    (wk_window_object_cleared_cb (World.start volume_only (fun _ => 0)) 1 2
        scenario_specs).aborted = false
      ∧ (∃ evs : List Event,
          (wk_window_object_cleared_cb (World.start volume_only (fun _ => 0)) 1 2
              scenario_specs).trace
              = (World.start volume_only (fun _ => 0)).trace ++ evs
                ++ [Event.pthread_mutex_lock Mutex.web_view_ready_mutex]
            ∧ (∀ e ∈ evs, e.is_gate = false)
            ∧ evs.countP Event.is_g_module_open = scenario_specs.length) :=
  ⟨by decide,
    (readiness_gate_acquired_after_spawning (World.start volume_only (fun _ => 0)) 1 2
      scenario_specs (by decide)).1⟩

/-- C8, counterexample. In the scenario `volume`, `does_not_exist` the readiness
gate is not acquired before the first spawn starts: no lock of
`web_view_ready_mutex` stands in front of the first `g_module_open`, the trace
holds exactly one such lock, and that lock is its last event. -/
theorem readiness_gate_not_acquired_before_spawning :
    acquired_before_first_spawn scenario_world.trace = false
      ∧ scenario_world.trace.count (Event.pthread_mutex_lock Mutex.web_view_ready_mutex) = 1
      ∧ scenario_world.trace.getLast?
          = some (Event.pthread_mutex_lock Mutex.web_view_ready_mutex) := by
  decide

/-- A global that was just set is found under its name. -/
theorem global_set_global (globals : List (CString × Nat)) (name : CString) (obj : Nat) :
    ((set_global globals name obj).find? (fun g => g.1 = name)).map (fun g => g.2)
      = some obj := by
  simp [set_global]

/-- C9, as the code has it. A widget that `spawn_widget` returns has the name it was
spawned under and the type its module's `widget_type` accessor returns, or its
name if the module has no accessor. Its script object is the global binding
whose name is the first 63 bytes of `widget_` followed by the type; that is
`widget_` followed by the whole type when the type has at most 56 bytes. -/
theorem spawn_widget_type_and_binding (W : World) (bar context config : Nat)
    (name : CString) (w : widget)
    (h : (spawn_widget W bar context config name).1 = some w) :
    w.name = name
      ∧ (∃ lib : GModule, W.g_module_open (libname name) = some lib
          ∧ (∀ t, lib.widget_type = some t → w.type = t)
          ∧ (lib.widget_type = none → w.type = name))
      ∧ (spawn_widget W bar context config name).2.globals
          = set_global W.globals (("widget_".toList ++ w.type).take 63) w.js_object
      ∧ (spawn_widget W bar context config name).2.global
          (("widget_".toList ++ w.type).take 63) = some w.js_object
      ∧ (w.type.length ≤ 56 →
          (spawn_widget W bar context config name).2.global ("widget_".toList ++ w.type)
            = some w.js_object) := by
  have key : w.name = name
      ∧ (∃ lib : GModule, W.g_module_open (libname name) = some lib
          ∧ (∀ t, lib.widget_type = some t → w.type = t)
          ∧ (lib.widget_type = none → w.type = name))
      ∧ (spawn_widget W bar context config name).2.globals
          = set_global W.globals (("widget_".toList ++ w.type).take 63) w.js_object := by
    revert h
    unfold spawn_widget
    dsimp only
    split
    · simp [spawn_widget_error]
    · split
      · simp [spawn_widget_error]
      · rename_i lib hlib _ _ _
        simp only [init_widget_js_obj, World.emit, spawn_widget_error]
        split
        · split <;> simp
        · intro h
          simp only [Option.some.injEq] at h
          subst h
          refine ⟨rfl, ⟨lib, hlib, ?_, ?_⟩, ?_⟩
          · intro t ht
            simp [ht]
          · intro ht
            simp [ht]
          · simp [classname, snprintf]
  refine ⟨key.1, key.2.1, key.2.2, ?_, ?_⟩
  · rw [World.global, key.2.2]
    exact global_set_global _ _ _
  · intro hlen
    have ht : ("widget_".toList ++ w.type).take 63 = "widget_".toList ++ w.type := by
      apply List.take_of_length_le
      simp
      omega
    rw [World.global, key.2.2, ht]
    exact global_set_global _ _ _

/-- C9, witness: the module `volume` has no type accessor, so the widget's type is
its name `volume`, and its script object is the global `widget_volume`. -/
theorem spawn_widget_type_and_binding_witness :
    (spawn_widget (World.start volume_only (fun _ => 0)) 1 2 7 "volume".toList).1
        = some volume_widget
      ∧ (spawn_widget (World.start volume_only (fun _ => 0)) 1 2 7 "volume".toList).2.global
          ("widget_".toList ++ volume_widget.type) = some volume_widget.js_object :=
  ⟨by decide,
    (spawn_widget_type_and_binding (World.start volume_only (fun _ => 0)) 1 2 7
      "volume".toList volume_widget (by decide)).2.2.2.2 (by decide)⟩

/-- C9, counterexample. The module `long_type` declares a type of 57 bytes. Its
widget is spawned with that type, but no global binding is named `widget_`
followed by the whole type: the one binding installed has a name of 63 bytes,
`widget_` followed by the first 56 bytes of the type. -/
theorem binding_name_truncated :
    ((spawn_widget (World.start long_type_only (fun _ => 0)) 1 2 7
        "long_type".toList).1.map (fun w => w.type)) = some (List.replicate 57 'x')
      ∧ (spawn_widget (World.start long_type_only (fun _ => 0)) 1 2 7
          "long_type".toList).2.global ("widget_".toList ++ List.replicate 57 'x') = none
      ∧ (spawn_widget (World.start long_type_only (fun _ => 0)) 1 2 7
          "long_type".toList).2.globals
          = [("widget_".toList ++ List.replicate 56 'x', 2)] := by
  decide

/-- When the module cannot be opened or lacks `widget_main`, `spawn_widget` returns
null and leaves the globals, the objects and the threads as they were, and the
process runs on. -/
theorem spawn_widget_load_failure_frame (W : World) (bar context config : Nat)
    (name : CString)
    (h : W.g_module_open (libname name) = none
      ∨ ∃ lib, W.g_module_open (libname name) = some lib ∧ lib.widget_main = none) :
    (spawn_widget W bar context config name).1 = none
      ∧ (spawn_widget W bar context config name).2.globals = W.globals
      ∧ (spawn_widget W bar context config name).2.objects = W.objects
      ∧ (spawn_widget W bar context config name).2.threads = W.threads
      ∧ (spawn_widget W bar context config name).2.aborted = W.aborted := by
  unfold spawn_widget
  dsimp only
  rcases h with h | ⟨lib, h, hm⟩
  · simp [h, World.emit, spawn_widget_error]
  · simp [h, hm, World.emit, spawn_widget_error]

/-- Whenever `spawn_widget` returns no widget, the set of running threads is as
before. -/
theorem spawn_widget_none_threads (W : World) (bar context config : Nat) (name : CString)
    (h : (spawn_widget W bar context config name).1 = none) :
    (spawn_widget W bar context config name).2.threads = W.threads := by
  revert h
  unfold spawn_widget
  dsimp only
  split
  · simp [World.emit, spawn_widget_error]
  · split
    · simp [World.emit, spawn_widget_error]
    · simp only [init_widget_js_obj, World.emit, spawn_widget_error]
      split
      · split <;> simp
      · simp

/-- When `spawn_widget` aborts the process: the module exports `widget_main` and a
table `widget_js_staticfuncs`, and `pthread_create` fails. -/
theorem spawn_widget_aborts_iff (W : World) (bar context config : Nat) (name : CString)
    (hW : W.aborted = false) :
    (spawn_widget W bar context config name).2.aborted = true ↔
      ∃ lib m t, W.g_module_open (libname name) = some lib
        ∧ lib.widget_main = some m
        ∧ lib.widget_js_staticfuncs = some t ∧ t ≠ 0
        ∧ W.pthread_create_ret W.pthread_calls ≠ 0 := by
  unfold spawn_widget
  dsimp only
  split
  · rename_i h
    simp [spawn_widget_error, World.emit, hW, h]
  · split
    · rename_i lib h _ hm
      constructor
      · simp [spawn_widget_error, World.emit, hW]
      · rintro ⟨lib2, m, t, h2, hm2, -⟩
        rw [h] at h2
        cases h2
        rw [hm] at hm2
        cases hm2
    · rename_i lib h _ m hm
      simp only [init_widget_js_obj, World.emit, spawn_widget_error]
      split
      · rename_i hret
        split
        · rename_i hsf
          simp only [true_iff]
          cases hs : lib.widget_js_staticfuncs with
          | none => simp [hs] at hsf
          | some t =>
            simp only [hs] at hsf
            exact ⟨lib, m, t, h, hm, hs, hsf, hret⟩
        · rename_i hsf
          constructor
          · simp [hW]
          · rintro ⟨lib2, m2, t, h2, -, hs, ht, -⟩
            rw [h] at h2
            cases h2
            simp [hs, ht] at hsf
      · rename_i hret
        constructor
        · simp [hW]
        · rintro ⟨lib2, m2, t, h2, -, -, -, hr⟩
          exact absurd hr hret

/-- The failing `spawn_widget` of `volume`, a module without a table, returns: the
process is not aborted. -/
theorem spawn_widget_volume_thread_failure_returns :
    (spawn_widget (World.start volume_only (fun _ => 11)) 1 2 7 "volume".toList).2.aborted
      = false := by
  decide

/-- Every widget that `spawn_widget` returns has the scripting context it was spawned
with and a script object that is not null. -/
theorem spawn_widget_sets_context (W : World) (bar context config : Nat) (name : CString)
    (w : widget) (h : (spawn_widget W bar context config name).1 = some w) :
    w.js_context = context ∧ w.js_object = W.fresh + 1 ∧ w.js_object ≠ 0 := by
  revert h
  unfold spawn_widget
  dsimp only
  split
  · simp [spawn_widget_error]
  · split
    · simp [spawn_widget_error]
    · simp only [init_widget_js_obj, World.emit, spawn_widget_error]
      split
      · split <;> simp
      · intro h
        simp only [Option.some.injEq] at h
        subst h
        simp

/-- C10, at the failing input. The module `volume` loads, but `pthread_create`
returns 11 (`EAGAIN`): `spawn_widget` returns null and no thread is running, yet
the global `widget_volume`, absent before the call, is bound after it. -/
theorem spawn_widget_thread_failure_leaves_binding :
    (spawn_widget (World.start volume_only (fun _ => 11)) 1 2 7 "volume".toList).1 = none
      ∧ (World.start volume_only (fun _ => 11)).global "widget_volume".toList = none
      ∧ (spawn_widget (World.start volume_only (fun _ => 11)) 1 2 7
          "volume".toList).2.global "widget_volume".toList = some 2
      ∧ (spawn_widget (World.start volume_only (fun _ => 11)) 1 2 7
          "volume".toList).2.threads = [] := by
  decide

/-! ## Properties of `join_widget_threads` -/

/-- Slot `i` of a registry without null slots holds the `i`-th widget. -/
theorem getElem?_map_some_drop (ws : List widget) (i : Nat) (h : i < ws.length) :
    ∃ w, (ws.map some)[i]? = some (some w) ∧ ws.drop i = w :: ws.drop (i + 1) := by
  refine ⟨ws[i], ?_, ?_⟩
  · simp [List.getElem?_eq_getElem h]
  · exact List.drop_eq_getElem_cons h

/-- On a registry without null slots and of fewer than 65536 slots the first loop
returns, having locked the exit mutex of each remaining widget in order. -/
theorem lock_loop_returns (ws : List widget) (hlen : ws.length < USHRT_RANGE) :
    ∀ (fuel i : Nat) (tr : List Event), i ≤ ws.length → ws.length - i < fuel →
      lock_loop (ws.map some) ws.length fuel i tr
        = Outcome.returned (tr ++ lock_events (ws.drop i)) := by
  intro fuel
  induction fuel with
  | zero => intro i tr _ h; omega
  | succ fuel ih =>
    intro i tr hi hf
    rw [lock_loop]
    by_cases hlt : i < ws.length
    · obtain ⟨w, hw, hd⟩ := getElem?_map_some_drop ws i hlt
      have hmod : (i + 1) % USHRT_RANGE = i + 1 := Nat.mod_eq_of_lt (by omega)
      simp only [hlt, if_true, hw, hmod]
      rw [ih (i + 1) _ (by omega) (by omega), hd]
      simp [lock_events]
    · have : i = ws.length := by omega
      subst this
      simp [lock_events]

/-- On a registry without null slots and of 65536 slots or more the first loop
never returns: the counter wraps to 0 before it reaches `widgets_len`. -/
theorem lock_loop_wraps (ws : List widget) (hlen : USHRT_RANGE ≤ ws.length) :
    ∀ (fuel i : Nat) (tr tr2 : List Event), i < USHRT_RANGE →
      lock_loop (ws.map some) ws.length fuel i tr ≠ Outcome.returned tr2 := by
  intro fuel
  induction fuel with
  | zero => intro i tr tr2 _; simp [lock_loop]
  | succ fuel ih =>
    intro i tr tr2 hi
    have hlt : i < ws.length := by omega
    obtain ⟨w, hw, -⟩ := getElem?_map_some_drop ws i hlt
    rw [lock_loop]
    simp only [hlt, if_true, hw]
    exact ih _ _ _ (Nat.mod_lt _ (by decide))

/-- On a registry without null slots and of fewer than 65536 slots the second loop
returns, having run `wait_step` for each remaining widget in order. -/
theorem wait_loop_returns (ws : List widget) (hlen : ws.length < USHRT_RANGE)
    (clock : Nat → timespec) (wait_ret : Nat → Int) :
    ∀ (fuel i : Nat) (tr : List Event), i ≤ ws.length → ws.length - i < fuel →
      wait_loop (ws.map some) ws.length clock wait_ret fuel i tr
        = Outcome.returned (tr ++ wait_events clock wait_ret (ws.drop i) i) := by
  intro fuel
  induction fuel with
  | zero => intro i tr _ h; omega
  | succ fuel ih =>
    intro i tr hi hf
    rw [wait_loop]
    by_cases hlt : i < ws.length
    · obtain ⟨w, hw, hd⟩ := getElem?_map_some_drop ws i hlt
      have hmod : (i + 1) % USHRT_RANGE = i + 1 := Nat.mod_eq_of_lt (by omega)
      simp only [hlt, if_true, hw, hmod]
      rw [ih (i + 1) _ (by omega) (by omega), hd]
      simp [wait_events]
    · have : i = ws.length := by omega
      subst this
      simp [wait_events]

/-- The shutdown protocol, for a registry without null slots. When every slot of a
non-empty registry of fewer than 65536 slots holds a widget, `join_widget_threads`
returns (given fuel for more iterations than there are slots), and its trace is:
the log line; the lock of every exit mutex, in registry order; one write of the
stop notification; for each widget in registry order the clock read, the wait
until that time plus two seconds, and the cancel (after a timeout) or the join
(otherwise); one read of the stop notification; the release of the registry. -/
theorem join_widget_threads_protocol (ws : List widget) (efd fuel : Nat)
    (clock : Nat → timespec) (wait_ret : Nat → Int)
    (hne : ws ≠ []) (hlen : ws.length < USHRT_RANGE) (hfuel : ws.length < fuel) :
    join_widget_threads fuel (some (ws.map some)) ws.length efd clock wait_ret
      = Outcome.returned
          ([Event.LOG_DEBUG []] ++ lock_events ws ++ [Event.eventfd_write efd 1]
            ++ wait_events clock wait_ret ws 0
            ++ [Event.eventfd_read efd, Event.free_widgets_active]) := by
  have hpos : ws.length > 0 := List.length_pos.mpr hne
  unfold join_widget_threads
  simp only [hpos, if_true]
  rw [lock_loop_returns ws hlen fuel 0 _ (by omega) (by omega)]
  simp only [List.drop_zero]
  rw [wait_loop_returns ws hlen clock wait_ret fuel 0 _ (by omega) (by omega)]
  simp

/-- The shutdown protocol on two widgets, the first timing out and the second
signalling: the first is cancelled, the second joined. -/
theorem join_widget_threads_protocol_instance :
    join_widget_threads 3 (some [some widget_a, some widget_b]) 2 5 clock_100
        (fun i => if i = 0 then ETIMEDOUT else 0)
      = Outcome.returned
          [Event.LOG_DEBUG [],
           Event.pthread_mutex_lock (Mutex.exit_mutex 1),
           Event.pthread_mutex_lock (Mutex.exit_mutex 4),
           Event.eventfd_write 5 1,
           Event.clock_gettime { tv_sec := 100, tv_nsec := 5 },
           Event.pthread_cond_timedwait (Cond.exit_cond 1) (Mutex.exit_mutex 1)
             { tv_sec := 102, tv_nsec := 5 } 110,
           Event.LOG_WARN "a".toList,
           Event.pthread_cancel 11,
           Event.clock_gettime { tv_sec := 100, tv_nsec := 5 },
           Event.pthread_cond_timedwait (Cond.exit_cond 4) (Mutex.exit_mutex 4)
             { tv_sec := 102, tv_nsec := 5 } 0,
           Event.pthread_join 12,
           Event.eventfd_read 5,
           Event.free_widgets_active] :=
  join_widget_threads_protocol [widget_a, widget_b] 5 3 clock_100
    (fun i => if i = 0 then ETIMEDOUT else 0) (by decide) (by decide) (by decide)

/-- One iteration of the second loop: the deadline is the clock reading plus two
seconds; the thread is cancelled and not joined when the wait returns
`ETIMEDOUT`, and joined and not cancelled on every other return value. -/
theorem wait_step_join_or_cancel (now : timespec) (ret : Int) (w : widget) :
    (wait_step now ret w).take 2
        = [Event.clock_gettime now,
           Event.pthread_cond_timedwait (Cond.exit_cond w.self) (Mutex.exit_mutex w.self)
             { tv_sec := now.tv_sec + 2, tv_nsec := now.tv_nsec } ret]
      ∧ (ret = ETIMEDOUT →
          (wait_step now ret w).count (Event.pthread_cancel w.thread) = 1
            ∧ (wait_step now ret w).count (Event.pthread_join w.thread) = 0)
      ∧ (ret ≠ ETIMEDOUT →
          (wait_step now ret w).count (Event.pthread_cancel w.thread) = 0
            ∧ (wait_step now ret w).count (Event.pthread_join w.thread) = 1) := by
  refine ⟨by simp [wait_step], ?_, ?_⟩
  · intro h
    simp [wait_step, h]
  · intro h
    simp [wait_step, h]

/-- C5, at the failing input. For the registry whose first slot holds a widget and
whose second slot is null, `join_widget_threads` locks the exit mutex of the
widget and then dereferences the null slot, still in its first loop: for no
amount of fuel does it return, and its trace never holds the write of the stop
notification, a wait, the read of the stop notification or the release of the
registry. -/
theorem join_widget_threads_no_stop_notification (fuel efd : Nat)
    (clock : Nat → timespec) (wait_ret : Nat → Int) :
    (∀ tr, join_widget_threads fuel (some [some widget_a, none]) 2 efd clock wait_ret
        ≠ Outcome.returned tr)
      ∧ (join_widget_threads (fuel + 2) (some [some widget_a, none]) 2 efd clock wait_ret
          = Outcome.null_dereference
              [Event.LOG_DEBUG [], Event.pthread_mutex_lock (Mutex.exit_mutex 1)])
      ∧ Event.eventfd_write efd 1 ∉
          (join_widget_threads fuel (some [some widget_a, none]) 2 efd clock wait_ret).trace
      ∧ Event.eventfd_read efd ∉
          (join_widget_threads fuel (some [some widget_a, none]) 2 efd clock wait_ret).trace
      ∧ Event.free_widgets_active ∉
          (join_widget_threads fuel (some [some widget_a, none]) 2 efd clock wait_ret).trace := by
  refine ⟨?_, rfl, ?_, ?_, ?_⟩ <;>
    rcases fuel with _ | _ | fuel <;>
    simp [join_widget_threads, lock_loop, USHRT_RANGE, Outcome.trace, widget_a]

/-- C6, at the failing input. The registry holds the widget `widget_a` (thread 11)
and a null slot, and every wait would report that the worker signalled
(`wait_ret` is 0 throughout). `join_widget_threads` dereferences the null slot
before its second loop, so the worker of `widget_a` is neither joined nor
cancelled, and no clock is read and no wait made, for any amount of fuel. -/
theorem join_widget_threads_neither_joins_nor_cancels (fuel efd : Nat)
    (clock : Nat → timespec) :
    Event.pthread_join 11 ∉
        (join_widget_threads fuel (some [some widget_a, none]) 2 efd clock
          (fun _ => 0)).trace
      ∧ Event.pthread_cancel 11 ∉
        (join_widget_threads fuel (some [some widget_a, none]) 2 efd clock
          (fun _ => 0)).trace
      ∧ (∀ e ∈ (join_widget_threads fuel (some [some widget_a, none]) 2 efd clock
            (fun _ => 0)).trace,
          e = Event.LOG_DEBUG [] ∨ e = Event.pthread_mutex_lock (Mutex.exit_mutex 1)) := by
  refine ⟨?_, ?_, ?_⟩ <;>
    rcases fuel with _ | _ | fuel <;>
    simp [join_widget_threads, lock_loop, USHRT_RANGE, Outcome.trace, widget_a]

/-- C7, at the failing input. The registry that `wk_window_object_cleared_cb` leaves
for `volume`, `does_not_exist` is the widget of `volume` followed by a null
slot. On it `join_widget_threads` does not skip the null slot: after locking the
exit mutex of the widget it dereferences the null slot in its first loop and
goes no further, so the protocol is not completed for the widget in slot 0. -/
theorem join_widget_threads_dereferences_null_slot (fuel efd : Nat)
    (clock : Nat → timespec) (wait_ret : Nat → Int) :
    scenario_world.widgets_active = some [some volume_widget, none]
      ∧ scenario_world.widgets_len = 2
      ∧ join_widget_threads (fuel + 2) scenario_world.widgets_active
          scenario_world.widgets_len efd clock wait_ret
          = Outcome.null_dereference
              [Event.LOG_DEBUG [],
               Event.pthread_mutex_lock (Mutex.exit_mutex volume_widget.self)] := by
  have h1 : scenario_world.widgets_active = some [some volume_widget, none] := by decide
  have h2 : scenario_world.widgets_len = 2 := by decide
  refine ⟨h1, h2, ?_⟩
  rw [h1, h2]
  rfl

end Candybar
